import Mathlib

/-!
Verification of the Oxide cloud-controller-manager core against its
natural-language specification.

The Go sources are shallowly embedded: Go strings are `List Char`,
fallible operations return `Except`, and every call to the cloud backend
is recorded in an explicit call trace so that "no call was issued"
becomes a statement about the trace.
-/

set_option autoImplicit false

namespace OxideCCM

/-- Go strings are modelled as lists of characters. -/
abbrev GoStr := List Char

/-! ## Identity codec (`internal/provider/provider.go`) -/

/-- Hexadecimal-digit check modelling the `xvalues` table consulted by
`xtob` in `github.com/google/uuid`: it accepts the bytes `0`-`9`,
`a`-`f` and `A`-`F` and rejects everything else. -/
def hexOk (c : Char) : Bool :=
  c.isDigit || (decide ('a' ≤ c) && decide (c ≤ 'f')) || (decide ('A' ≤ c) && decide (c ≤ 'F'))

/-- The 32 indices of a canonical 36-byte UUID rendering that hold hex
digits (every index except 8, 13, 18 and 23, which hold dashes);
`uuid.Parse` reads them pairwise through `xtob`. -/
def hexPositions : List Nat :=
  [0, 1, 2, 3, 4, 5, 6, 7, 9, 10, 11, 12, 14, 15, 16, 17,
   19, 20, 21, 22, 24, 25, 26, 27, 28, 29, 30, 31, 32, 33, 34, 35]

/-- The canonical-form checks of `uuid.Parse` on a buffer whose first 36
bytes must read `xxxxxxxx-xxxx-xxxx-xxxx-xxxxxxxxxxxx`: dashes at
indices 8, 13, 18 and 23 and hex digits everywhere else.  Bytes past
index 35 are not inspected (`uuid.Parse` never checks them either). -/
def canonicalOk (s : GoStr) : Bool :=
  (s.getD 8 ' ' == '-') && (s.getD 13 ' ' == '-') && (s.getD 18 ' ' == '-')
    && (s.getD 23 ' ' == '-') && hexPositions.all (fun i => hexOk (s.getD i ' '))

/-- `strings.EqualFold(s[:9], "urn:uuid:")` as performed by `uuid.Parse`
on 45-byte inputs: the first nine characters must spell `urn:uuid:` up
to ASCII case. -/
def urnFoldOk : GoStr → Bool
  | u :: r :: n :: c1 :: u2 :: u3 :: i :: d :: c2 :: _ =>
    ((u == 'u') || (u == 'U')) && ((r == 'r') || (r == 'R')) && ((n == 'n') || (n == 'N'))
      && (c1 == ':') && ((u2 == 'u') || (u2 == 'U')) && ((u3 == 'u') || (u3 == 'U'))
      && ((i == 'i') || (i == 'I')) && ((d == 'd') || (d == 'D')) && (c2 == ':')
  | _ => false

/-- Success predicate of `uuid.Parse` from `github.com/google/uuid`,
dispatching on the input length exactly as the Go function does:
36 bytes canonical, 45 bytes `urn:uuid:`-prefixed (case-insensitively),
38 bytes braced (only the 36 bytes after the first are inspected),
32 bytes dash-less hex; every other length is rejected. -/
def uuidParseOk (s : GoStr) : Bool :=
  if s.length = 36 then canonicalOk s
  else if s.length = 45 then urnFoldOk s && canonicalOk (s.drop 9)
  else if s.length = 38 then canonicalOk (s.drop 1)
  else if s.length = 32 then s.all hexOk
  else false

/-- `strings.HasPrefix s pre`. -/
def goHasPre (s pre : GoStr) : Bool :=
  match pre, s with
  | [], _ => true
  | _ :: _, [] => false
  | p :: ps, c :: cs => (c == p) && goHasPre cs ps

/-- `strings.TrimPrefix s pre`: drops `pre` from the front of `s` when
present, otherwise returns `s` unchanged. -/
def goTrimPre (s pre : GoStr) : GoStr :=
  if goHasPre s pre then s.drop pre.length else s

/-- The three distinct error kinds produced by `InstanceIDFromProviderID`
(`provider id is empty`, `provider id does not have the oxide scheme
prefix`, `provider id contains invalid uuid`). -/
inductive DecodeError where
  | emptyIdentity
  | badScheme
  | badFormat
  deriving DecidableEq, Repr

/-- The provider-ID scheme prefix `oxide://`. -/
def oxideScheme : GoStr := "oxide://".data

/-- `InstanceIDFromProviderID` from `internal/provider/provider.go`:
rejects the empty string, then inputs lacking the `oxide://` prefix,
then trims the prefix and rejects remainders that `uuid.Parse` does not
accept; on success it returns the trimmed remainder verbatim. -/
def InstanceIDFromProviderID (providerID : GoStr) : Except DecodeError GoStr :=
  if providerID = [] then .error .emptyIdentity
  else if !goHasPre providerID oxideScheme then .error .badScheme
  else
    let instanceID := goTrimPre providerID oxideScheme
    if uuidParseOk instanceID then .ok instanceID else .error .badFormat

/-- `NewProviderID` from `internal/provider/provider.go`:
`fmt.Sprintf("oxide://%s", instanceID)`. -/
def NewProviderID (instanceID : GoStr) : GoStr :=
  oxideScheme ++ instanceID

example :
    InstanceIDFromProviderID "oxide://12345678-1234-1234-1234-123456789abc".data
      = .ok "12345678-1234-1234-1234-123456789abc".data := rfl

example :
    InstanceIDFromProviderID "oxide://12345678-1234-1234-1234-123456789ABC".data
      = .ok "12345678-1234-1234-1234-123456789ABC".data := rfl

example : InstanceIDFromProviderID "".data = .error .emptyIdentity := rfl

example :
    InstanceIDFromProviderID "aws://12345678-1234-1234-1234-123456789abc".data
      = .error .badScheme := rfl

example : InstanceIDFromProviderID "oxide://not-a-valid-uuid".data = .error .badFormat := rfl

example : InstanceIDFromProviderID "oxide://".data = .error .badFormat := rfl

example : InstanceIDFromProviderID "oxide://12345678-1234".data = .error .badFormat := rfl

/-- Swapping the ASCII case of the six hexadecimal letters, identity on
every other character.  `uuid.Parse` is invariant under this map, which
is how case-insensitivity of the hex digits is expressed below. -/
def flipHexCase (c : Char) : Char :=
  if c = 'a' then 'A' else if c = 'b' then 'B' else if c = 'c' then 'C'
  else if c = 'd' then 'D' else if c = 'e' then 'E' else if c = 'f' then 'F'
  else if c = 'A' then 'a' else if c = 'B' then 'b' else if c = 'C' then 'c'
  else if c = 'D' then 'd' else if c = 'E' then 'e' else if c = 'F' then 'f'
  else c

theorem flip_invariant (f : Char → Bool)
    (ha : f 'a' = f 'A') (hb : f 'b' = f 'B') (hc : f 'c' = f 'C')
    (hd : f 'd' = f 'D') (he : f 'e' = f 'E') (hf : f 'f' = f 'F')
    (c : Char) : f (flipHexCase c) = f c := by
  unfold flipHexCase
  by_cases e1 : c = 'a'
  · rw [if_pos e1, e1, ha]
  rw [if_neg e1]
  by_cases e2 : c = 'b'
  · rw [if_pos e2, e2, hb]
  rw [if_neg e2]
  by_cases e3 : c = 'c'
  · rw [if_pos e3, e3, hc]
  rw [if_neg e3]
  by_cases e4 : c = 'd'
  · rw [if_pos e4, e4, hd]
  rw [if_neg e4]
  by_cases e5 : c = 'e'
  · rw [if_pos e5, e5, he]
  rw [if_neg e5]
  by_cases e6 : c = 'f'
  · rw [if_pos e6, e6, hf]
  rw [if_neg e6]
  by_cases e7 : c = 'A'
  · rw [if_pos e7, e7, ha]
  rw [if_neg e7]
  by_cases e8 : c = 'B'
  · rw [if_pos e8, e8, hb]
  rw [if_neg e8]
  by_cases e9 : c = 'C'
  · rw [if_pos e9, e9, hc]
  rw [if_neg e9]
  by_cases e10 : c = 'D'
  · rw [if_pos e10, e10, hd]
  rw [if_neg e10]
  by_cases e11 : c = 'E'
  · rw [if_pos e11, e11, he]
  rw [if_neg e11]
  by_cases e12 : c = 'F'
  · rw [if_pos e12, e12, hf]
  rw [if_neg e12]

theorem hexOk_flip (c : Char) : hexOk (flipHexCase c) = hexOk c :=
  flip_invariant hexOk (by decide) (by decide) (by decide) (by decide) (by decide) (by decide) c

theorem flip_beq_dash (c : Char) : (flipHexCase c == '-') = (c == '-') :=
  flip_invariant (fun x => x == '-') (by decide) (by decide) (by decide) (by decide) (by decide)
    (by decide) c

theorem flip_beq_colon (c : Char) : (flipHexCase c == ':') = (c == ':') :=
  flip_invariant (fun x => x == ':') (by decide) (by decide) (by decide) (by decide) (by decide)
    (by decide) c

theorem flip_fold_u (c : Char) :
    ((flipHexCase c == 'u') || (flipHexCase c == 'U')) = ((c == 'u') || (c == 'U')) :=
  flip_invariant (fun x => (x == 'u') || (x == 'U')) (by decide) (by decide) (by decide)
    (by decide) (by decide) (by decide) c

theorem flip_fold_r (c : Char) :
    ((flipHexCase c == 'r') || (flipHexCase c == 'R')) = ((c == 'r') || (c == 'R')) :=
  flip_invariant (fun x => (x == 'r') || (x == 'R')) (by decide) (by decide) (by decide)
    (by decide) (by decide) (by decide) c

theorem flip_fold_n (c : Char) :
    ((flipHexCase c == 'n') || (flipHexCase c == 'N')) = ((c == 'n') || (c == 'N')) :=
  flip_invariant (fun x => (x == 'n') || (x == 'N')) (by decide) (by decide) (by decide)
    (by decide) (by decide) (by decide) c

theorem flip_fold_i (c : Char) :
    ((flipHexCase c == 'i') || (flipHexCase c == 'I')) = ((c == 'i') || (c == 'I')) :=
  flip_invariant (fun x => (x == 'i') || (x == 'I')) (by decide) (by decide) (by decide)
    (by decide) (by decide) (by decide) c

theorem flip_fold_d (c : Char) :
    ((flipHexCase c == 'd') || (flipHexCase c == 'D')) = ((c == 'd') || (c == 'D')) :=
  flip_invariant (fun x => (x == 'd') || (x == 'D')) (by decide) (by decide) (by decide)
    (by decide) (by decide) (by decide) c

theorem getD_map_flip (l : GoStr) (i : Nat) :
    (l.map flipHexCase).getD i ' ' = flipHexCase (l.getD i ' ') := by
  induction l generalizing i with
  | nil => cases i <;> rfl
  | cons c cs ih =>
    cases i with
    | zero => rfl
    | succ n => exact ih n

theorem canonicalOk_map_flip (s : GoStr) :
    canonicalOk (s.map flipHexCase) = canonicalOk s := by
  unfold canonicalOk
  simp only [getD_map_flip, flip_beq_dash, hexOk_flip]

theorem urnFoldOk_map_flip (s : GoStr) : urnFoldOk (s.map flipHexCase) = urnFoldOk s := by
  rcases s with _|⟨u, _|⟨r, _|⟨n, _|⟨c1, _|⟨u2, _|⟨u3, _|⟨i, _|⟨d, _|⟨c2, rest⟩⟩⟩⟩⟩⟩⟩⟩⟩ <;>
    first
      | rfl
      | (simp only [List.map_cons, urnFoldOk]
         rw [flip_fold_u u, flip_fold_r r, flip_fold_n n, flip_beq_colon c1, flip_fold_u u2,
           flip_fold_u u3, flip_fold_i i, flip_fold_d d, flip_beq_colon c2])

theorem uuidParseOk_map_flip (s : GoStr) : uuidParseOk (s.map flipHexCase) = uuidParseOk s := by
  unfold uuidParseOk
  rw [List.length_map]
  split_ifs
  · exact canonicalOk_map_flip s
  · rw [urnFoldOk_map_flip, ← List.map_drop, canonicalOk_map_flip]
  · rw [← List.map_drop, canonicalOk_map_flip]
  · rw [List.all_map]
    simp only [Function.comp_def, hexOk_flip]
  · rfl

theorem goHasPre_self_append (pre s : GoStr) : goHasPre (pre ++ s) pre = true := by
  induction pre with
  | nil => simp [goHasPre]
  | cons c cs ih => simp [goHasPre, ih]

theorem goTrimPre_self_append (pre s : GoStr) : goTrimPre (pre ++ s) pre = s := by
  unfold goTrimPre
  rw [goHasPre_self_append]
  simp [List.drop_left]

/-- C2: every provider ID of the form `oxide://<uuid>` with `<uuid>`
accepted by `uuid.Parse` decodes to exactly the `<uuid>` remainder, and
encoding puts the `oxide://` prefix back, so both round-trip equations
`encode (decode s) = s` and `decode (encode id) = Except.ok id` hold. -/
theorem providerID_roundtrip (r : GoStr) (h : uuidParseOk r = true) :
    InstanceIDFromProviderID (oxideScheme ++ r) = Except.ok r ∧
      NewProviderID r = oxideScheme ++ r := by
  constructor
  · unfold InstanceIDFromProviderID
    rw [if_neg (by simp [oxideScheme]), goHasPre_self_append]
    simp [goTrimPre_self_append, h]
  · rfl

theorem providerID_roundtrip_witness :
    uuidParseOk "12345678-1234-1234-1234-123456789abc".data = true ∧
      (InstanceIDFromProviderID (oxideScheme ++ "12345678-1234-1234-1234-123456789abc".data)
          = Except.ok "12345678-1234-1234-1234-123456789abc".data ∧
        NewProviderID "12345678-1234-1234-1234-123456789abc".data
          = oxideScheme ++ "12345678-1234-1234-1234-123456789abc".data) :=
  ⟨by decide, providerID_roundtrip "12345678-1234-1234-1234-123456789abc".data (by decide)⟩

/-- C3: `InstanceIDFromProviderID` fails with the empty-identity error
on the empty string, with the bad-scheme error on non-empty inputs
lacking the `oxide://` prefix, and with the bad-format error when the
remainder after the prefix is not accepted by `uuid.Parse`; and the
UUID parser treats upper- and lower-case hex digits alike (it is
invariant under swapping the case of every hex letter). -/
theorem decode_error_kinds :
    InstanceIDFromProviderID [] = Except.error DecodeError.emptyIdentity ∧
      (∀ s : GoStr, s ≠ [] → goHasPre s oxideScheme = false →
        InstanceIDFromProviderID s = Except.error DecodeError.badScheme) ∧
      (∀ r : GoStr, uuidParseOk r = false →
        InstanceIDFromProviderID (oxideScheme ++ r) = Except.error DecodeError.badFormat) ∧
      (∀ r : GoStr, uuidParseOk (r.map flipHexCase) = uuidParseOk r) := by
  refine ⟨rfl, ?_, ?_, uuidParseOk_map_flip⟩
  · intro s hne hpre
    unfold InstanceIDFromProviderID
    rw [if_neg hne, hpre]
    rfl
  · intro r hbad
    unfold InstanceIDFromProviderID
    rw [if_neg (by simp [oxideScheme]), goHasPre_self_append]
    simp [goTrimPre_self_append, hbad]

theorem decode_error_kinds_witness :
    InstanceIDFromProviderID "aws://x".data = Except.error DecodeError.badScheme ∧
      InstanceIDFromProviderID (oxideScheme ++ "not-a-uuid".data)
        = Except.error DecodeError.badFormat ∧
      uuidParseOk ("ABCDEF12-1234-1234-1234-123456789abc".data.map flipHexCase)
        = uuidParseOk "ABCDEF12-1234-1234-1234-123456789abc".data :=
  ⟨decode_error_kinds.2.1 "aws://x".data (by decide) (by decide),
    decode_error_kinds.2.2.1 "not-a-uuid".data (by decide),
    decode_error_kinds.2.2.2 "ABCDEF12-1234-1234-1234-123456789abc".data⟩

/-! ## Instance resolution and metadata (`internal/provider/instances_v2.go`) -/

/-- The portion of an `oxide.Instance` record read by the controller. -/
structure Instance where
  id : GoStr
  hostname : GoStr
  ncpus : Nat
  memory : Nat
  runState : GoStr
  deriving Repr, DecidableEq

/-- An `oxide.InstanceNetworkInterface` (only its `Ip` field is read). -/
structure Nic where
  ip : GoStr
  deriving Repr, DecidableEq

/-- An `oxide.ExternalIp` (its `Kind` and `Ip` fields). -/
structure ExternalIp where
  kind : GoStr
  ip : GoStr
  deriving Repr, DecidableEq

/-- `oxide.InstanceStateStopped`. -/
def instanceStateStopped : GoStr := "stopped".data

/-- The external-IP kind denoting a masquerade/SNAT address, excluded
from node addresses. -/
def snatKind : GoStr := "snat".data

/-- The fields of a Kubernetes `v1.Node` that this controller reads:
the object name, `Spec.ProviderID`, and (for the control-plane
selector modelled below) the keys of the node's labels. -/
structure KNode where
  name : GoStr
  providerID : GoStr
  labels : List GoStr
  deriving Repr, DecidableEq

/-- One request to the Oxide backend.  Every embedded operation returns
its result together with the list of requests it issued, so "this path
performs no backend call" is the statement that its trace is empty. -/
inductive CloudCall where
  | instanceViewById (id : GoStr)
  | instanceViewByName (project name : GoStr)
  | nicList (id : GoStr)
  | extIpList (id : GoStr)
  deriving Repr, DecidableEq

/-- The cloud backend's responses.  `oxide.Client.InstanceView` is
called either with just an instance ID or with a project plus an
instance name; the two shapes are split into `viewById` and
`viewByName`.  Errors carry the raw error string of the Go client
(the code inspects it for the substring `NotFound`). -/
structure CloudBackend where
  viewById : GoStr → Except GoStr Instance
  viewByName : GoStr → GoStr → Except GoStr Instance
  listNics : GoStr → Except GoStr (List Nic)
  listExtIps : GoStr → Except GoStr (List ExternalIp)

/-- `strings.Contains s sub`. -/
def goContains (s sub : GoStr) : Bool :=
  goHasPre s sub ||
    match s with
    | [] => false
    | _ :: t => goContains t sub

/-- The error values produced by `instances_v2.go`; each `fmt.Errorf`
wrap in the Go code becomes one constructor.  `codecFailed` is the
unwrapped decode error that `getInstanceID` returns directly, while
`decodeFailed` is the decode error wrapped with "failed retrieving
instance id from provider id" by `InstanceExists`/`InstanceShutdown`. -/
inductive CcmError where
  | decodeFailed (e : DecodeError)
  | codecFailed (e : DecodeError)
  | viewFailed (id : GoStr) (msg : GoStr)
  | viewInstanceFailed (msg : GoStr)
  | viewByNameFailed (msg : GoStr)
  | nicListFailed (msg : GoStr)
  | extIpListFailed (msg : GoStr)
  deriving Repr, DecidableEq

/-- `InstancesV2.InstanceExists`: decodes the provider ID (a decode
error aborts before any backend request), then views the instance by
ID; a backend error whose message contains `NotFound` yields
`(false, nil)`, any other backend error is surfaced as an error, and
success yields `(true, nil)`. -/
def InstanceExists (c : CloudBackend) (node : KNode) :
    Except CcmError Bool × List CloudCall :=
  match InstanceIDFromProviderID node.providerID with
  | .error e => (.error (.decodeFailed e), [])
  | .ok instanceID =>
    match c.viewById instanceID with
    | .error err =>
      if goContains err "NotFound".data then (.ok false, [.instanceViewById instanceID])
      else (.error (.viewFailed instanceID err), [.instanceViewById instanceID])
    | .ok _ => (.ok true, [.instanceViewById instanceID])

/-- `InstancesV2.getInstanceID`: a non-empty provider ID is decoded and
no backend request is made; an empty provider ID falls back to viewing
the instance by the node's name within the configured project and
using that instance's ID. -/
def getInstanceID (c : CloudBackend) (project : GoStr) (node : KNode) :
    Except CcmError GoStr × List CloudCall :=
  if node.providerID ≠ [] then
    match InstanceIDFromProviderID node.providerID with
    | .error e => (.error (.codecFailed e), [])
    | .ok instanceID => (.ok instanceID, [])
  else
    match c.viewByName project node.name with
    | .error err => (.error (.viewByNameFailed err), [.instanceViewByName project node.name])
    | .ok inst => (.ok inst.id, [.instanceViewByName project node.name])

/-- `gibibyte` from `instances_v2.go`: the number of bytes in a
gibibyte, `1024 * 1024 * 1024`. -/
def gibibyte : Nat := 1024 * 1024 * 1024

/-- `fmt.Sprintf("%d-%d", instance.Ncpus, instance.Memory/gibibyte)`:
the decimal renderings of the CPU count and of the memory divided by
`gibibyte` (Go integer division truncates), joined by a hyphen. -/
def instanceTypeStr (inst : Instance) : GoStr :=
  (Nat.repr inst.ncpus).data ++ "-".data ++ (Nat.repr (inst.memory / gibibyte)).data

/-- `v1.NodeAddress` types populated by this controller. -/
inductive NodeAddressType where
  | hostName
  | internalIP
  | externalIP
  deriving Repr, DecidableEq

/-- A `v1.NodeAddress`. -/
structure NodeAddress where
  type : NodeAddressType
  address : GoStr
  deriving Repr, DecidableEq

/-- The fields of `cloudprovider.InstanceMetadata` that the controller
populates. -/
structure InstanceMetadataRec where
  providerID : GoStr
  instanceType : GoStr
  nodeAddresses : List NodeAddress
  deriving Repr, DecidableEq

/-- The `for _, nic := range nics.Items` loop of `InstanceMetadata`:
appends one InternalIP address per network interface to the
accumulator, in listing order. -/
def appendInternalIPs (addrs : List NodeAddress) : List Nic → List NodeAddress
  | [] => addrs
  | nic :: rest => appendInternalIPs (addrs ++ [⟨.internalIP, nic.ip⟩]) rest

/-- The `for _, externalIP := range externalIPs.Items` loop of
`InstanceMetadata`: skips entries whose kind is `snat` (`continue`) and
appends one ExternalIP address per remaining entry, in listing order. -/
def appendExternalIPs (addrs : List NodeAddress) : List ExternalIp → List NodeAddress
  | [] => addrs
  | e :: rest =>
    if e.kind = snatKind then appendExternalIPs addrs rest
    else appendExternalIPs (addrs ++ [⟨.externalIP, e.ip⟩]) rest

/-- `InstancesV2.InstanceMetadata`: resolves the instance ID via
`getInstanceID`, views the instance, lists its network interfaces and
then its external IPs, and assembles the provider ID, the
instance-type string, and the node-address list (hostname first, then
the interfaces, then the non-snat external IPs). -/
def InstanceMetadata (c : CloudBackend) (project : GoStr) (node : KNode) :
    Except CcmError InstanceMetadataRec × List CloudCall :=
  match getInstanceID c project node with
  | (.error e, calls) => (.error e, calls)
  | (.ok instanceID, calls) =>
    match c.viewById instanceID with
    | .error err => (.error (.viewInstanceFailed err), calls ++ [.instanceViewById instanceID])
    | .ok inst =>
      match c.listNics instanceID with
      | .error err =>
        (.error (.nicListFailed err),
          calls ++ [.instanceViewById instanceID, .nicList instanceID])
      | .ok nics =>
        match c.listExtIps instanceID with
        | .error err =>
          (.error (.extIpListFailed err),
            calls ++ [.instanceViewById instanceID, .nicList instanceID, .extIpList instanceID])
        | .ok externalIPs =>
          let nodeAddresses := [(⟨.hostName, inst.hostname⟩ : NodeAddress)]
          let nodeAddresses := appendInternalIPs nodeAddresses nics
          let nodeAddresses := appendExternalIPs nodeAddresses externalIPs
          (.ok ⟨NewProviderID instanceID, instanceTypeStr inst, nodeAddresses⟩,
            calls ++ [.instanceViewById instanceID, .nicList instanceID, .extIpList instanceID])

/-- `InstancesV2.InstanceShutdown`: decodes the provider ID (no
name-based fallback), views the instance by ID, and reports whether its
run state equals `stopped`. -/
def InstanceShutdown (c : CloudBackend) (node : KNode) :
    Except CcmError Bool × List CloudCall :=
  match InstanceIDFromProviderID node.providerID with
  | .error e => (.error (.decodeFailed e), [])
  | .ok instanceID =>
    match c.viewById instanceID with
    | .error err => (.error (.viewFailed instanceID err), [.instanceViewById instanceID])
    | .ok inst => (.ok (inst.runState == instanceStateStopped), [.instanceViewById instanceID])

theorem appendInternalIPs_eq (addrs : List NodeAddress) (nics : List Nic) :
    appendInternalIPs addrs nics
      = addrs ++ nics.map fun nic => (⟨.internalIP, nic.ip⟩ : NodeAddress) := by
  induction nics generalizing addrs with
  | nil => simp [appendInternalIPs]
  | cons nic rest ih => simp [appendInternalIPs, ih]

theorem appendExternalIPs_eq (addrs : List NodeAddress) (ips : List ExternalIp) :
    appendExternalIPs addrs ips
      = addrs ++ (ips.filter fun e => !(e.kind == snatKind)).map
          fun e => (⟨.externalIP, e.ip⟩ : NodeAddress) := by
  induction ips generalizing addrs with
  | nil => simp [appendExternalIPs]
  | cons e rest ih =>
    by_cases h : e.kind = snatKind
    · simp [appendExternalIPs, h, ih]
    · simp [appendExternalIPs, h, ih]

/-- C1: for a resolved instance, the node-address list is the hostname
entry first, then one InternalIP per network interface in listing
order, then one ExternalIP per listed external IP in listing order
with every `snat`-kind entry excluded; the hostname entry is the only
one of its type. -/
theorem metadata_addresses_order (c : CloudBackend) (project : GoStr) (node : KNode)
    (instanceID : GoStr) (calls : List CloudCall) (inst : Instance) (nics : List Nic)
    (ips : List ExternalIp)
    (hid : getInstanceID c project node = (.ok instanceID, calls))
    (hview : c.viewById instanceID = .ok inst)
    (hnics : c.listNics instanceID = .ok nics)
    (hips : c.listExtIps instanceID = .ok ips) :
    ∃ md, (InstanceMetadata c project node).1 = .ok md ∧
      md.nodeAddresses
        = ⟨.hostName, inst.hostname⟩
            :: (nics.map fun nic => (⟨.internalIP, nic.ip⟩ : NodeAddress))
            ++ (ips.filter fun e => !(e.kind == snatKind)).map
                (fun e => (⟨.externalIP, e.ip⟩ : NodeAddress)) ∧
      md.nodeAddresses.countP (fun a => a.type == .hostName) = 1 := by
  refine ⟨⟨NewProviderID instanceID, instanceTypeStr inst,
    appendExternalIPs (appendInternalIPs [⟨.hostName, inst.hostname⟩] nics) ips⟩, ?_, ?_, ?_⟩
  · simp only [InstanceMetadata, hid, hview, hnics, hips]
  · simp [appendInternalIPs_eq, appendExternalIPs_eq]
  · simp only [appendInternalIPs_eq, appendExternalIPs_eq]
    rw [List.countP_append, List.countP_append, List.countP_map, List.countP_map]
    have h1 : List.countP
        ((fun a => a.type == NodeAddressType.hostName) ∘ fun nic =>
          ({ type := NodeAddressType.internalIP, address := nic.ip } : NodeAddress)) nics = 0 :=
      List.countP_eq_zero.mpr fun a _ => by simp [Function.comp]
    have h2 : List.countP
        ((fun a => a.type == NodeAddressType.hostName) ∘ fun e =>
          ({ type := NodeAddressType.externalIP, address := e.ip } : NodeAddress))
        (ips.filter fun e => !(e.kind == snatKind)) = 0 :=
      List.countP_eq_zero.mpr fun a _ => by simp [Function.comp]
    rw [h1, h2]
    simp [List.countP_cons]

/-- C6: for a resolved instance with `c` CPUs and `m` bytes of memory,
the instance-type string is the decimal rendering of `c`, a hyphen, and
the decimal rendering of `m / gibibyte`, where `gibibyte = 2 ^ 30` and
the division is truncating (floor) integer division. -/
theorem metadata_instance_type (c : CloudBackend) (project : GoStr) (node : KNode)
    (instanceID : GoStr) (calls : List CloudCall) (inst : Instance) (nics : List Nic)
    (ips : List ExternalIp)
    (hid : getInstanceID c project node = (.ok instanceID, calls))
    (hview : c.viewById instanceID = .ok inst)
    (hnics : c.listNics instanceID = .ok nics)
    (hips : c.listExtIps instanceID = .ok ips) :
    ∃ md, (InstanceMetadata c project node).1 = .ok md ∧
      md.instanceType
        = (Nat.repr inst.ncpus).data ++ "-".data ++ (Nat.repr (inst.memory / 2 ^ 30)).data ∧
      gibibyte = 2 ^ 30 ∧
      inst.memory / gibibyte * gibibyte ≤ inst.memory ∧
      inst.memory < inst.memory / gibibyte * gibibyte + gibibyte := by
  have hg : gibibyte = 2 ^ 30 := by norm_num [gibibyte]
  refine ⟨⟨NewProviderID instanceID, instanceTypeStr inst,
    appendExternalIPs (appendInternalIPs [⟨.hostName, inst.hostname⟩] nics) ips⟩, ?_, ?_, hg,
    Nat.div_mul_le_self inst.memory gibibyte,
    Nat.lt_div_mul_add (by norm_num [gibibyte])⟩
  · simp only [InstanceMetadata, hid, hview, hnics, hips]
  · show instanceTypeStr inst = _
    unfold instanceTypeStr
    rw [hg]

/-- A sample backend used to instantiate the metadata theorems on
concrete inputs. -/
def sampleUuid : GoStr := "12345678-1234-1234-1234-123456789abc".data

def sampleInstance : Instance :=
  ⟨sampleUuid, "node-1".data, 4, 17179869184, "running".data⟩

def sampleBackend : CloudBackend where
  viewById id := if id = sampleUuid then .ok sampleInstance else .error "NotFound".data
  viewByName _ name :=
    if name = "node-1".data then .ok sampleInstance else .error "NotFound".data
  listNics _ := .ok [⟨"10.0.0.5".data⟩]
  listExtIps _ := .ok [⟨snatKind, "203.0.113.1".data⟩, ⟨"floating".data, "203.0.113.7".data⟩]

def sampleNode : KNode := ⟨"node-1".data, NewProviderID sampleUuid, []⟩

theorem metadata_addresses_order_witness :
    ∃ md, (InstanceMetadata sampleBackend "proj".data sampleNode).1 = .ok md ∧
      md.nodeAddresses
        = ⟨.hostName, sampleInstance.hostname⟩
            :: (([(⟨"10.0.0.5".data⟩ : Nic)]).map fun nic => (⟨.internalIP, nic.ip⟩ : NodeAddress))
            ++ (([⟨snatKind, "203.0.113.1".data⟩,
                  ⟨"floating".data, "203.0.113.7".data⟩] : List ExternalIp).filter
                    fun e => !(e.kind == snatKind)).map
                (fun e => (⟨.externalIP, e.ip⟩ : NodeAddress)) ∧
      md.nodeAddresses.countP (fun a => a.type == .hostName) = 1 :=
  metadata_addresses_order sampleBackend "proj".data sampleNode sampleUuid [] sampleInstance
    [⟨"10.0.0.5".data⟩] [⟨snatKind, "203.0.113.1".data⟩, ⟨"floating".data, "203.0.113.7".data⟩]
    rfl rfl rfl rfl

theorem metadata_instance_type_witness :
    ∃ md, (InstanceMetadata sampleBackend "proj".data sampleNode).1 = .ok md ∧
      md.instanceType
        = (Nat.repr sampleInstance.ncpus).data ++ "-".data
            ++ (Nat.repr (sampleInstance.memory / 2 ^ 30)).data ∧
      gibibyte = 2 ^ 30 ∧
      sampleInstance.memory / gibibyte * gibibyte ≤ sampleInstance.memory ∧
      sampleInstance.memory < sampleInstance.memory / gibibyte * gibibyte + gibibyte :=
  metadata_instance_type sampleBackend "proj".data sampleNode sampleUuid [] sampleInstance
    [⟨"10.0.0.5".data⟩] [⟨snatKind, "203.0.113.1".data⟩, ⟨"floating".data, "203.0.113.7".data⟩]
    rfl rfl rfl rfl

/-- C4: when the provider ID decodes, a backend failure whose message
contains `NotFound` makes `InstanceExists` return `(false, nil)` —
absence as a non-error outcome — while every other backend failure is
surfaced as an error, never as a silent `false`. -/
theorem instance_exists_absence (c : CloudBackend) (node : KNode) (instanceID err : GoStr)
    (hid : InstanceIDFromProviderID node.providerID = .ok instanceID)
    (herr : c.viewById instanceID = .error err) :
    (goContains err "NotFound".data = true →
      InstanceExists c node = (.ok false, [.instanceViewById instanceID])) ∧
    (goContains err "NotFound".data = false →
      InstanceExists c node
        = (.error (.viewFailed instanceID err), [.instanceViewById instanceID])) := by
  constructor <;> intro h <;> simp [InstanceExists, hid, herr, h]

/-- A backend whose instance lookup reports absence. -/
def notFoundBackend : CloudBackend where
  viewById _ := .error "404 NotFound".data
  viewByName _ _ := .error "404 NotFound".data
  listNics _ := .ok []
  listExtIps _ := .ok []

/-- A backend whose instance lookup fails for another reason. -/
def downBackend : CloudBackend where
  viewById _ := .error "connection refused".data
  viewByName _ _ := .error "connection refused".data
  listNics _ := .ok []
  listExtIps _ := .ok []

theorem instance_exists_absence_witness :
    InstanceExists notFoundBackend sampleNode
      = (.ok false, [.instanceViewById sampleUuid]) ∧
    InstanceExists downBackend sampleNode
      = (.error (.viewFailed sampleUuid "connection refused".data),
          [.instanceViewById sampleUuid]) :=
  ⟨(instance_exists_absence notFoundBackend sampleNode sampleUuid "404 NotFound".data
      rfl rfl).1 (by decide),
    (instance_exists_absence downBackend sampleNode sampleUuid "connection refused".data
      rfl rfl).2 (by decide)⟩

/-- C5: a node with a non-empty provider ID is resolved by decoding it
(success and failure both bypass the backend entirely — the call trace
is empty — so decode errors propagate and no name lookup happens), and
exactly when the provider ID is empty the instance is fetched by the
node's name within the configured project and that instance's ID is
used. -/
theorem instance_id_resolution (c : CloudBackend) (project : GoStr) (node : KNode) :
    (∀ i, node.providerID ≠ [] → InstanceIDFromProviderID node.providerID = .ok i →
      getInstanceID c project node = (.ok i, [])) ∧
    (∀ e, node.providerID ≠ [] → InstanceIDFromProviderID node.providerID = .error e →
      getInstanceID c project node = (.error (.codecFailed e), [])) ∧
    (∀ inst, node.providerID = [] → c.viewByName project node.name = .ok inst →
      getInstanceID c project node = (.ok inst.id, [.instanceViewByName project node.name])) ∧
    (∀ err, node.providerID = [] → c.viewByName project node.name = .error err →
      getInstanceID c project node
        = (.error (.viewByNameFailed err), [.instanceViewByName project node.name])) := by
  refine ⟨?_, ?_, ?_, ?_⟩ <;> intro x h1 h2 <;> simp [getInstanceID, h1, h2]

/-- A node that has not yet been assigned a provider ID. -/
def unregisteredNode : KNode := ⟨"node-1".data, [], []⟩

theorem instance_id_resolution_witness :
    getInstanceID sampleBackend "proj".data sampleNode = (.ok sampleUuid, []) ∧
    getInstanceID sampleBackend "proj".data unregisteredNode
      = (.ok sampleInstance.id,
          [.instanceViewByName "proj".data "node-1".data]) :=
  ⟨(instance_id_resolution sampleBackend "proj".data sampleNode).1 sampleUuid
      (by decide) rfl,
    (instance_id_resolution sampleBackend "proj".data unregisteredNode).2.2.1 sampleInstance
      rfl rfl⟩

/-- C9: when the provider ID is empty or malformed (its decode fails),
both `InstanceExists` and `InstanceShutdown` return the decode error
without issuing any backend call (their traces are empty), whereas
`InstanceMetadata` on an empty provider ID falls back to a lookup by
node name — its first backend call is the view-by-name request. -/
theorem no_name_fallback (c : CloudBackend) (project : GoStr) (node : KNode) (e : DecodeError)
    (hdec : InstanceIDFromProviderID node.providerID = .error e) :
    InstanceExists c node = (.error (.decodeFailed e), []) ∧
    InstanceShutdown c node = (.error (.decodeFailed e), []) ∧
    (node.providerID = [] →
      ∃ rest, (InstanceMetadata c project node).2
        = .instanceViewByName project node.name :: rest) := by
  refine ⟨by simp [InstanceExists, hdec], by simp [InstanceShutdown, hdec], ?_⟩
  intro hempty
  have hget : ∃ r0, getInstanceID c project node
      = (r0, [CloudCall.instanceViewByName project node.name]) := by
    cases h : c.viewByName project node.name with
    | error err => exact ⟨.error (.viewByNameFailed err), by simp [getInstanceID, hempty, h]⟩
    | ok inst => exact ⟨.ok inst.id, by simp [getInstanceID, hempty, h]⟩
  obtain ⟨r0, hget⟩ := hget
  cases r0 with
  | error e0 => exact ⟨[], by simp [InstanceMetadata, hget]⟩
  | ok id0 =>
    cases hv : c.viewById id0 with
    | error err =>
      exact ⟨[.instanceViewById id0], by simp [InstanceMetadata, hget, hv]⟩
    | ok inst =>
      cases hn : c.listNics id0 with
      | error err =>
        exact ⟨[.instanceViewById id0, .nicList id0],
          by simp [InstanceMetadata, hget, hv, hn]⟩
      | ok nics =>
        cases hx : c.listExtIps id0 with
        | error err =>
          exact ⟨[.instanceViewById id0, .nicList id0, .extIpList id0],
            by simp [InstanceMetadata, hget, hv, hn, hx]⟩
        | ok ips =>
          exact ⟨[.instanceViewById id0, .nicList id0, .extIpList id0],
            by simp [InstanceMetadata, hget, hv, hn, hx]⟩

theorem no_name_fallback_witness :
    InstanceExists sampleBackend unregisteredNode
      = (.error (.decodeFailed .emptyIdentity), []) ∧
    InstanceShutdown sampleBackend unregisteredNode
      = (.error (.decodeFailed .emptyIdentity), []) ∧
    (unregisteredNode.providerID = [] →
      ∃ rest, (InstanceMetadata sampleBackend "proj".data unregisteredNode).2
        = .instanceViewByName "proj".data unregisteredNode.name :: rest) :=
  no_name_fallback sampleBackend "proj".data unregisteredNode .emptyIdentity rfl

/-- C10: for a node that resolves to an instance, `InstanceShutdown`
reports exactly whether the instance's run state equals `stopped`:
it returns true if and only if the state is `stopped`, and any other
run state yields false with no error. -/
theorem shutdown_iff_stopped (c : CloudBackend) (node : KNode) (instanceID : GoStr)
    (inst : Instance)
    (hid : InstanceIDFromProviderID node.providerID = .ok instanceID)
    (hview : c.viewById instanceID = .ok inst) :
    InstanceShutdown c node
      = (.ok (inst.runState == instanceStateStopped), [.instanceViewById instanceID]) ∧
    ((InstanceShutdown c node).1 = .ok true ↔ inst.runState = instanceStateStopped) ∧
    (inst.runState ≠ instanceStateStopped → (InstanceShutdown c node).1 = .ok false) := by
  have h : InstanceShutdown c node
      = (.ok (inst.runState == instanceStateStopped), [.instanceViewById instanceID]) := by
    simp [InstanceShutdown, hid, hview]
  refine ⟨h, ?_, ?_⟩
  · rw [h]
    simp [Except.ok.injEq, beq_iff_eq]
  · intro hne
    rw [h]
    simp [Except.ok.injEq, beq_eq_false_iff_ne, hne]

/-- A backend hosting a stopped instance. -/
def stoppedBackend : CloudBackend where
  viewById id :=
    if id = sampleUuid then .ok ⟨sampleUuid, "node-1".data, 2, gibibyte, instanceStateStopped⟩
    else .error "NotFound".data
  viewByName _ _ := .error "NotFound".data
  listNics _ := .ok []
  listExtIps _ := .ok []

theorem shutdown_iff_stopped_witness :
    InstanceShutdown stoppedBackend sampleNode
      = (.ok (instanceStateStopped == instanceStateStopped), [.instanceViewById sampleUuid]) ∧
    ((InstanceShutdown stoppedBackend sampleNode).1 = .ok true ↔
      instanceStateStopped = instanceStateStopped) ∧
    (instanceStateStopped ≠ instanceStateStopped →
      (InstanceShutdown stoppedBackend sampleNode).1 = .ok false) :=
  shutdown_iff_stopped stoppedBackend sampleNode sampleUuid
    ⟨sampleUuid, "node-1".data, 2, gibibyte, instanceStateStopped⟩ rfl rfl

/-!
## Floating-IP load balancer (`LoadBalancer` in package `provider`)

`GetLoadBalancerName`, `findControlPlaneNode` and `EnsureLoadBalancer`
are translated from the source.  The oxide floating-IP API they call
(`FloatingIpView` / `FloatingIpCreate` / `FloatingIpAttach` /
`FloatingIpDetach`) is server-side and outside this repository, so its
state and transitions are given by an explicit environment model
(`FipProject` and the `fip` functions below) reflecting the documented
behaviour the client code relies on; every request is recorded in a
call trace.
-/

/-- The `node-role.kubernetes.io/control-plane` label key that
`findControlPlaneNode` checks first on each node (current standard). -/
def controlPlaneLabel : GoStr := "node-role.kubernetes.io/control-plane".data

/-- The `node-role.kubernetes.io/master` label key that
`findControlPlaneNode` checks second (legacy, still supported). -/
def masterLabel : GoStr := "node-role.kubernetes.io/master".data

/-- A node qualifies as a control-plane backend when its label keys
include the control-plane label or the legacy master label — the
disjunction of the two presence checks `findControlPlaneNode` performs
on each node. -/
def isControlPlaneNode (n : KNode) : Bool :=
  n.labels.contains controlPlaneLabel || n.labels.contains masterLabel

/-- The `for _, node := range nodes` loop of
`LoadBalancer.findControlPlaneNode`: per node, the control-plane label
key is looked up first, then the legacy master key, and the first node
carrying either is returned.  `KNode.labels` models the key set of the
node's label map; a `nil` Go map has no keys, so the
`node.Labels == nil` `continue` is subsumed by both lookups failing. -/
def findControlPlaneLoop : List KNode → Option KNode
  | [] => none
  | node :: rest =>
    if node.labels.contains controlPlaneLabel then some node
    else if node.labels.contains masterLabel then some node
    else findControlPlaneLoop rest

/-- A Kubernetes Service as consumed by the load balancer: only its
namespace and name are read. -/
structure Service where
  ns : GoStr
  name : GoStr
  deriving Repr, DecidableEq

/-- `LoadBalancer.GetLoadBalancerName`:
`fmt.Sprintf("lb-%s-%s", service.Namespace, service.Name)`. -/
def GetLoadBalancerName (svc : Service) : GoStr :=
  "lb-".data ++ svc.ns ++ "-".data ++ svc.name

/-- The fields of an `oxide.FloatingIp` resource read by the load
balancer: its name, its address `Ip`, and `InstanceId` — the attached
instance, the empty string meaning unattached. -/
structure FloatingIp where
  name : GoStr
  ip : GoStr
  instanceId : GoStr
  deriving Repr, DecidableEq

/-- Environment model of the oxide floating-IP state within the
configured project: the existing resources plus the address the
`default` pool assigns to the next create call. -/
structure FipProject where
  fips : List FloatingIp
  nextIp : GoStr
  deriving Repr, DecidableEq

/-- The named floating IP in the project, if present. -/
def fipFind (fips : List FloatingIp) (name : GoStr) : Option FloatingIp :=
  fips.find? fun f => f.name == name

/-- Environment model of `FloatingIpView`: the named resource, or an
error whose message reads `NotFound` when it does not exist (the
client code tests the message for that substring). -/
def fipView (st : FipProject) (name : GoStr) : Except GoStr FloatingIp :=
  match fipFind st.fips name with
  | some fip => .ok fip
  | none => .error "NotFound".data

/-- Environment model of `FloatingIpCreate` in the `default` pool: a
new unattached resource holding the pool's next address, returned
together with the new project state. -/
def fipCreate (st : FipProject) (name : GoStr) : FloatingIp × FipProject :=
  (⟨name, st.nextIp, []⟩, ⟨⟨name, st.nextIp, []⟩ :: st.fips, st.nextIp⟩)

/-- Environment model of `FloatingIpAttach` to an instance: sets the
named resource's `InstanceId` and returns the updated resource. -/
def fipAttach (st : FipProject) (name instanceID : GoStr) : FloatingIp × FipProject :=
  (⟨name, (match fipFind st.fips name with | some f => f.ip | none => []), instanceID⟩,
    ⟨st.fips.map fun f => if f.name = name then ⟨f.name, f.ip, instanceID⟩ else f, st.nextIp⟩)

/-- Environment model of `FloatingIpDetach`: clears the named
resource's `InstanceId`. -/
def fipDetach (st : FipProject) (name : GoStr) : FipProject :=
  ⟨st.fips.map fun f => if f.name = name then ⟨f.name, f.ip, []⟩ else f, st.nextIp⟩

/-- One floating-IP API request, for the call traces. -/
inductive LbCall where
  | viewFip (name : GoStr)
  | createFip (name : GoStr)
  | attachFip (name target : GoStr)
  | detachFip (name : GoStr)
  | deleteFip (name : GoStr)
  deriving Repr, DecidableEq

/-- The error wraps of the load-balancer code that are reachable in
the environment model: "no control plane node found among %d nodes"
(wrapped by "failed finding control plane node"), "failed retrieving
instance id from provider id", and "failed viewing floating ip" on a
non-NotFound view error.  The create/attach/detach failure wraps
cannot arise because those transitions are total in the model. -/
inductive LbError where
  | noControlPlane (candidates : Nat)
  | decodeFailed (e : DecodeError)
  | viewFipFailed (name : GoStr) (msg : GoStr)
  deriving Repr, DecidableEq

/-- `LoadBalancer.findControlPlaneNode`: the scan of
`findControlPlaneLoop`, failing with the candidate count when no node
qualifies. -/
def findControlPlaneNode (nodes : List KNode) : Except LbError KNode :=
  match findControlPlaneLoop nodes with
  | some node => .ok node
  | none => .error (.noControlPlane nodes.length)

/-- The attachment block of `LoadBalancer.EnsureLoadBalancer` (from
the comment "Attach floating IP to the control plane node if not
already attached" to the status return): when the resource's
`InstanceId` is empty or differs from the desired instance, detach
first if it is attached elsewhere and then attach, reading the ingress
address from the attach result; otherwise no further call is issued
and the address is read from the resource as is. -/
def ensureAttachment (st : FipProject) (name instanceID : GoStr) (floatingIP : FloatingIp)
    (calls : List LbCall) : Except LbError GoStr × FipProject × List LbCall :=
  if floatingIP.instanceId = [] ∨ floatingIP.instanceId ≠ instanceID then
    let (st1, calls1) :=
      if floatingIP.instanceId ≠ [] then (fipDetach st name, calls ++ [.detachFip name])
      else (st, calls)
    let (fip2, st2) := fipAttach st1 name instanceID
    (.ok fip2.ip, st2, calls1 ++ [.attachFip name instanceID])
  else
    (.ok floatingIP.ip, st, calls)

/-- `LoadBalancer.EnsureLoadBalancer`: derive the resource name from
the Service; find a control-plane node; decode its provider ID; view
the floating IP, failing on a non-NotFound view error and creating the
resource in the `default` pool when absent; then run the attachment
block and return the ingress address.  The result carries the new
project state and the trace of floating-IP API calls. -/
def EnsureLoadBalancer (st : FipProject) (svc : Service) (nodes : List KNode) :
    Except LbError GoStr × FipProject × List LbCall :=
  let name := GetLoadBalancerName svc
  match findControlPlaneNode nodes with
  | .error e => (.error e, st, [])
  | .ok controlPlaneNode =>
    match InstanceIDFromProviderID controlPlaneNode.providerID with
    | .error e => (.error (.decodeFailed e), st, [])
    | .ok instanceID =>
      match fipView st name with
      | .error err =>
        if !goContains err "NotFound".data then
          (.error (.viewFipFailed name err), st, [.viewFip name])
        else
          let (floatingIP, st1) := fipCreate st name
          ensureAttachment st1 name instanceID floatingIP [.viewFip name, .createFip name]
      | .ok floatingIP =>
        ensureAttachment st name instanceID floatingIP [.viewFip name]

/-- Attach calls, for counting. -/
def isAttachCall : LbCall → Bool
  | .attachFip _ _ => true
  | _ => false

/-- Detach calls, for counting. -/
def isDetachCall : LbCall → Bool
  | .detachFip _ => true
  | _ => false

theorem decode_ok_parseOk (p i : GoStr) (h : InstanceIDFromProviderID p = Except.ok i) :
    uuidParseOk i = true := by
  by_cases h1 : p = []
  · simp [InstanceIDFromProviderID, h1] at h
  · by_cases h2 : goHasPre p oxideScheme = true
    · by_cases h3 : uuidParseOk (goTrimPre p oxideScheme) = true
      · simp [InstanceIDFromProviderID, h1, h2, h3] at h
        subst h
        exact h3
      · simp [InstanceIDFromProviderID, h1, h2, h3] at h
    · simp [InstanceIDFromProviderID, h1, h2] at h

theorem decode_ok_ne_nil (p i : GoStr) (h : InstanceIDFromProviderID p = Except.ok i) :
    i ≠ [] := by
  intro hnil
  have := decode_ok_parseOk p i h
  rw [hnil] at this
  exact absurd this (by decide)

theorem fipFind_map_set (fips : List FloatingIp) (name tgt : GoStr) (fip : FloatingIp)
    (h : fipFind fips name = some fip) :
    fipFind (fips.map fun f => if f.name = name then (⟨f.name, f.ip, tgt⟩ : FloatingIp) else f)
        name = some ⟨fip.name, fip.ip, tgt⟩ := by
  induction fips with
  | nil => simp [fipFind] at h
  | cons f rest ih =>
    by_cases hn : f.name = name
    · have hb : (f.name == name) = true := beq_iff_eq.mpr hn
      simp only [fipFind, List.find?, hb] at h
      injection h with h
      subst h
      simp only [List.map_cons]
      rw [if_pos hn]
      simp only [fipFind, List.find?, hb]
    · have hb : (f.name == name) = false := beq_eq_false_iff_ne.mpr hn
      simp only [fipFind, List.find?, hb] at h
      simp only [List.map_cons]
      rw [if_neg hn]
      simp only [fipFind, List.find?, hb]
      exact ih h

theorem ensureAttachment_attached (st : FipProject) (name instanceID : GoStr)
    (fip : FloatingIp) (calls : List LbCall)
    (h1 : fip.instanceId ≠ []) (h2 : fip.instanceId = instanceID) :
    ensureAttachment st name instanceID fip calls = (.ok fip.ip, st, calls) := by
  unfold ensureAttachment
  rw [if_neg fun hor => hor.elim h1 fun hne => hne h2]

theorem ensureAttachment_empty (st : FipProject) (name instanceID : GoStr)
    (fip : FloatingIp) (calls : List LbCall) (h : fip.instanceId = []) :
    ensureAttachment st name instanceID fip calls
      = (.ok (fipAttach st name instanceID).1.ip, (fipAttach st name instanceID).2,
          calls ++ [.attachFip name instanceID]) := by
  unfold ensureAttachment
  rw [if_pos (Or.inl h), if_neg (by simp [h])]

theorem ensureAttachment_move (st : FipProject) (name instanceID : GoStr)
    (fip : FloatingIp) (calls : List LbCall)
    (h1 : fip.instanceId ≠ []) (h2 : fip.instanceId ≠ instanceID) :
    ensureAttachment st name instanceID fip calls
      = (.ok (fipAttach (fipDetach st name) name instanceID).1.ip,
          (fipAttach (fipDetach st name) name instanceID).2,
          (calls ++ [.detachFip name]) ++ [.attachFip name instanceID]) := by
  unfold ensureAttachment
  rw [if_pos (Or.inr h2), if_pos h1]

/-- A successful `EnsureLoadBalancer` leaves the derived floating IP
attached to the instance of the selected control-plane node. -/
theorem ensure_post (st : FipProject) (svc : Service) (nodes : List KNode) (ip : GoStr)
    (st' : FipProject) (calls : List LbCall)
    (h : EnsureLoadBalancer st svc nodes = (.ok ip, st', calls)) :
    ∃ node instanceID fip,
      findControlPlaneNode nodes = .ok node ∧
      InstanceIDFromProviderID node.providerID = .ok instanceID ∧
      fipFind st'.fips (GetLoadBalancerName svc) = some fip ∧
      fip.instanceId = instanceID := by
  cases hsel : findControlPlaneNode nodes with
  | error e => simp [EnsureLoadBalancer, hsel] at h
  | ok node =>
    cases hdec : InstanceIDFromProviderID node.providerID with
    | error e => simp [EnsureLoadBalancer, hsel, hdec] at h
    | ok instanceID =>
      refine ⟨node, instanceID, ?_⟩
      cases hview : fipView st (GetLoadBalancerName svc) with
      | error err =>
        have herr : err = "NotFound".data ∧
            fipFind st.fips (GetLoadBalancerName svc) = none := by
          unfold fipView at hview
          cases hfind : fipFind st.fips (GetLoadBalancerName svc) with
          | some f => rw [hfind] at hview; exact Except.noConfusion hview
          | none =>
            rw [hfind] at hview
            injection hview with hview
            exact ⟨hview.symm, rfl⟩
        simp only [EnsureLoadBalancer, hsel, hdec, hview, herr.1] at h
        rw [if_neg (by decide)] at h
        simp only [fipCreate] at h
        rw [ensureAttachment_empty
          ⟨⟨GetLoadBalancerName svc, st.nextIp, []⟩ :: st.fips, st.nextIp⟩
          (GetLoadBalancerName svc) instanceID ⟨GetLoadBalancerName svc, st.nextIp, []⟩
          [.viewFip (GetLoadBalancerName svc), .createFip (GetLoadBalancerName svc)] rfl] at h
        simp only [Prod.mk.injEq] at h
        obtain ⟨-, hst, -⟩ := h
        refine ⟨⟨GetLoadBalancerName svc, st.nextIp, instanceID⟩, rfl, hdec, ?_, rfl⟩
        rw [← hst]
        exact fipFind_map_set
          ((⟨GetLoadBalancerName svc, st.nextIp, []⟩ : FloatingIp) :: st.fips)
          (GetLoadBalancerName svc) instanceID ⟨GetLoadBalancerName svc, st.nextIp, []⟩
          (by simp [fipFind, List.find?])
      | ok fip0 =>
        have hfind : fipFind st.fips (GetLoadBalancerName svc) = some fip0 := by
          unfold fipView at hview
          cases hfind : fipFind st.fips (GetLoadBalancerName svc) with
          | some f =>
            rw [hfind] at hview
            injection hview with hview
            rw [hview]
          | none => rw [hfind] at hview; exact Except.noConfusion hview
        by_cases hor : fip0.instanceId = [] ∨ fip0.instanceId ≠ instanceID
        · by_cases hne : fip0.instanceId ≠ []
          · simp only [EnsureLoadBalancer, hsel, hdec, hview] at h
            rw [ensureAttachment_move st (GetLoadBalancerName svc) instanceID fip0
              [.viewFip (GetLoadBalancerName svc)] hne (hor.resolve_left hne)] at h
            simp only [Prod.mk.injEq] at h
            obtain ⟨-, hst, -⟩ := h
            refine ⟨⟨fip0.name, fip0.ip, instanceID⟩, rfl, hdec, ?_, rfl⟩
            rw [← hst]
            exact fipFind_map_set (fipDetach st (GetLoadBalancerName svc)).fips
              (GetLoadBalancerName svc) instanceID ⟨fip0.name, fip0.ip, []⟩
              (fipFind_map_set st.fips (GetLoadBalancerName svc) [] fip0 hfind)
          · have hemp : fip0.instanceId = [] := not_ne_iff.mp hne
            simp only [EnsureLoadBalancer, hsel, hdec, hview] at h
            rw [ensureAttachment_empty st (GetLoadBalancerName svc) instanceID fip0
              [.viewFip (GetLoadBalancerName svc)] hemp] at h
            simp only [Prod.mk.injEq] at h
            obtain ⟨-, hst, -⟩ := h
            refine ⟨⟨fip0.name, fip0.ip, instanceID⟩, rfl, hdec, ?_, rfl⟩
            rw [← hst]
            exact fipFind_map_set st.fips (GetLoadBalancerName svc) instanceID fip0 hfind
        · push_neg at hor
          simp only [EnsureLoadBalancer, hsel, hdec, hview] at h
          rw [ensureAttachment_attached st (GetLoadBalancerName svc) instanceID fip0
            [.viewFip (GetLoadBalancerName svc)] hor.1 hor.2] at h
          simp only [Prod.mk.injEq] at h
          obtain ⟨-, hst, -⟩ := h
          exact ⟨fip0, rfl, hdec, hst ▸ hfind, hor.2⟩

/-- When the floating IP is already attached to the selected node's
instance, `EnsureLoadBalancer` issues only the view request and leaves
the state untouched. -/
theorem ensure_steady_state (st : FipProject) (svc : Service) (nodes : List KNode)
    (node : KNode) (instanceID : GoStr) (fip : FloatingIp)
    (hsel : findControlPlaneNode nodes = .ok node)
    (hdec : InstanceIDFromProviderID node.providerID = .ok instanceID)
    (hfip : fipFind st.fips (GetLoadBalancerName svc) = some fip)
    (hatt : fip.instanceId = instanceID) :
    EnsureLoadBalancer st svc nodes
      = (.ok fip.ip, st, [.viewFip (GetLoadBalancerName svc)]) := by
  have hne : instanceID ≠ [] := decode_ok_ne_nil node.providerID instanceID hdec
  have hview : fipView st (GetLoadBalancerName svc) = .ok fip := by
    simp [fipView, hfip]
  simp only [EnsureLoadBalancer, hsel, hdec, hview]
  exact ensureAttachment_attached st (GetLoadBalancerName svc) instanceID fip
    [.viewFip (GetLoadBalancerName svc)] (by rw [hatt]; exact hne) hatt

/-- C7: immediately after a successful `EnsureLoadBalancer`, a second
call with the same Service and an unchanged node set issues zero
attach and zero detach requests: the floating IP is already attached
to the selected node's instance, so the second call is a pure view
that leaves the attachment state untouched. -/
theorem ensure_idempotent (st : FipProject) (svc : Service) (nodes : List KNode) (ip : GoStr)
    (st' : FipProject) (calls : List LbCall)
    (h : EnsureLoadBalancer st svc nodes = (.ok ip, st', calls)) :
    ∃ ip2, EnsureLoadBalancer st' svc nodes
        = (.ok ip2, st', [.viewFip (GetLoadBalancerName svc)]) ∧
      (EnsureLoadBalancer st' svc nodes).2.2.countP isAttachCall = 0 ∧
      (EnsureLoadBalancer st' svc nodes).2.2.countP isDetachCall = 0 := by
  obtain ⟨node, instanceID, fip, hsel, hdec, hfip, hatt⟩ :=
    ensure_post st svc nodes ip st' calls h
  have h2 := ensure_steady_state st' svc nodes node instanceID fip hsel hdec hfip hatt
  refine ⟨fip.ip, h2, ?_, ?_⟩ <;> rw [h2] <;> rfl

/-- The candidate nodes used to instantiate the selector and
reconciler theorems. -/
def plainNode : KNode := ⟨"w1".data, [], []⟩

def cpNode : KNode := ⟨"cp1".data, NewProviderID sampleUuid, [controlPlaneLabel]⟩

def sampleService : Service := ⟨"ns".data, "web".data⟩

/-- The project state a first successful `EnsureLoadBalancer` of
`sampleService` produces from an empty project. -/
def ensuredState : FipProject :=
  ⟨[⟨"lb-ns-web".data, "198.51.100.3".data, sampleUuid⟩], "198.51.100.3".data⟩

theorem ensure_idempotent_witness :
    ∃ ip2, EnsureLoadBalancer ensuredState sampleService [plainNode, cpNode]
        = (.ok ip2, ensuredState, [.viewFip (GetLoadBalancerName sampleService)]) ∧
      (EnsureLoadBalancer ensuredState sampleService [plainNode, cpNode]).2.2.countP
        isAttachCall = 0 ∧
      (EnsureLoadBalancer ensuredState sampleService [plainNode, cpNode]).2.2.countP
        isDetachCall = 0 :=
  ensure_idempotent ⟨[], "198.51.100.3".data⟩ sampleService [plainNode, cpNode]
    "198.51.100.3".data ensuredState
    [.viewFip "lb-ns-web".data, .createFip "lb-ns-web".data,
      .attachFip "lb-ns-web".data sampleUuid] rfl

theorem findControlPlaneLoop_none (l : List KNode)
    (h : ∀ n ∈ l, isControlPlaneNode n = false) : findControlPlaneLoop l = none := by
  induction l with
  | nil => rfl
  | cons n rest ih =>
    have hn := h n (List.mem_cons_self n rest)
    rw [isControlPlaneNode, Bool.or_eq_false_iff] at hn
    simp only [findControlPlaneLoop]
    rw [if_neg (by rw [hn.1]; exact Bool.false_ne_true),
      if_neg (by rw [hn.2]; exact Bool.false_ne_true)]
    exact ih fun m hm => h m (List.mem_cons_of_mem n hm)

theorem findControlPlaneLoop_first (pre post : List KNode) (n : KNode)
    (hn : isControlPlaneNode n = true)
    (hpre : ∀ m ∈ pre, isControlPlaneNode m = false) :
    findControlPlaneLoop (pre ++ n :: post) = some n := by
  induction pre with
  | nil =>
    rw [isControlPlaneNode, Bool.or_eq_true] at hn
    simp only [List.nil_append, findControlPlaneLoop]
    by_cases hcp : n.labels.contains controlPlaneLabel = true
    · rw [if_pos hcp]
    · rw [if_neg hcp, if_pos (hn.resolve_left hcp)]
  | cons m rest ih =>
    have hm := hpre m (List.mem_cons_self m rest)
    rw [isControlPlaneNode, Bool.or_eq_false_iff] at hm
    simp only [List.cons_append, findControlPlaneLoop]
    rw [if_neg (by rw [hm.1]; exact Bool.false_ne_true),
      if_neg (by rw [hm.2]; exact Bool.false_ne_true)]
    exact ih fun m' hm' => hpre m' (List.mem_cons_of_mem m hm')

/-- C8: `findControlPlaneNode` fails (carrying the candidate count) on
the empty list and on any list with no control-plane or master
labelled node; on any list of the form `pre ++ n :: post` where `n`
qualifies and nothing in `pre` does, it returns `n` — the first
qualifying node in input order, scanning once; and as a pure function
it returns the same node on repeated calls over an unchanged list. -/
theorem find_control_plane_first :
    findControlPlaneNode [] = .error (.noControlPlane 0) ∧
      (∀ l : List KNode, (∀ n ∈ l, isControlPlaneNode n = false) →
        findControlPlaneNode l = .error (.noControlPlane l.length)) ∧
      (∀ (pre post : List KNode) (n : KNode), isControlPlaneNode n = true →
        (∀ m ∈ pre, isControlPlaneNode m = false) →
        findControlPlaneNode (pre ++ n :: post) = .ok n) ∧
      (∀ l : List KNode, findControlPlaneNode l = findControlPlaneNode l) := by
  refine ⟨rfl, ?_, ?_, fun l => rfl⟩
  · intro l h
    rw [findControlPlaneNode, findControlPlaneLoop_none l h]
  · intro pre post n hn hpre
    rw [findControlPlaneNode, findControlPlaneLoop_first pre post n hn hpre]

theorem find_control_plane_first_witness :
    findControlPlaneNode [] = .error (.noControlPlane 0) ∧
      findControlPlaneNode [plainNode] = .error (.noControlPlane 1) ∧
      findControlPlaneNode [plainNode, cpNode] = .ok cpNode :=
  ⟨find_control_plane_first.1,
    find_control_plane_first.2.1 [plainNode] (by decide),
    find_control_plane_first.2.2.1 [plainNode] [] cpNode (by decide) (by decide)⟩

end OxideCCM
